import Mathlib

/-!
Shallow embedding of the per-tick trading engine in `src/trader.py`.

Modelling conventions:
* Python floats are idealised as exact arithmetic: prices, fair values and
  momentum are `ℚ`; `statistics.stdev` produces a real square root, so
  volatility values and z-scores live in `ℝ`.
* Python dictionaries keyed by product name are `StrMap α = String → Option α`
  (`none` = key absent); order-book sides are association lists
  `List (ℤ × ℤ)` from price to resting volume, as in `datamodel.OrderDepth`.
* Statements that can raise are embedded in `Except PyErr`; `eBind` sequences
  them.  `jsonpickle` round-trips losslessly, so the `traderData` string is
  modelled as `Option SavedBlob` (`none` = the empty string of the first tick).
* Python `round` is round-half-to-even (banker's rounding), modelled by
  `pythonRound` on `ℚ` and `pythonRoundR` on `ℝ`.
-/

namespace Trader

/-- Kinds of Python exception the embedded code can raise. -/
inductive PyErr
  | keyError
  | zeroDivisionError
  | typeError
  deriving DecidableEq

/-- A string-keyed dictionary; `none` means the key is absent. -/
def StrMap (α : Type) : Type := String → Option α

/-- The empty dictionary. -/
def StrMap.empty {α : Type} : StrMap α := fun _ => none

/-- Dictionary update `m[k] = v`. -/
def StrMap.insert {α : Type} (m : StrMap α) (k : String) (v : α) : StrMap α :=
  fun q => if q = k then some v else m q

/-- Sequencing of two fallible Python statements: an exception in the first
aborts the whole computation. -/
def eBind {α β : Type} (x : Except PyErr α) (f : α → Except PyErr β) : Except PyErr β :=
  match x with
  | .error e => .error e
  | .ok a => f a

/-- Static per-product configuration, one entry of `self.product_parameters`.
Keys that a given product's dictionary lacks are `none`. -/
structure ProductParams where
  position_limit : ℤ
  fair_value : Option ℚ
  spread : ℚ
  min_edge : ℚ
  momentum_window : Option ℕ
  volatility_window : Option ℕ
  mean_reversion_window : Option ℕ
  std_dev_threshold : Option ℚ
  deriving DecidableEq

/-- Entry `self.product_parameters["RAINFOREST_RESIN"]`. -/
def resinParams : ProductParams := ⟨50, some 10000, 2, 1, none, none, none, none⟩

/-- Entry `self.product_parameters["KELP"]`. -/
def kelpParams : ProductParams := ⟨50, none, 3, 2, some 5, some 20, none, none⟩

/-- Entry `self.product_parameters["SQUID_INK"]`. -/
def squidParams : ProductParams := ⟨50, none, 5, 3, none, none, some 15, some (3/2)⟩

/-- The `self.product_parameters` dictionary set up in `Trader.__init__`. -/
def product_parameters : StrMap ProductParams := fun p =>
  if p = "RAINFOREST_RESIN" then some resinParams
  else if p = "KELP" then some kelpParams
  else if p = "SQUID_INK" then some squidParams
  else none

/-- Python subscript `self.product_parameters[p]`: raises `KeyError` when the
product is not configured. -/
def getParams (p : String) : Except PyErr ProductParams :=
  match product_parameters p with
  | some pp => .ok pp
  | none => .error PyErr.keyError

/-- One product's order-book snapshot (`datamodel.OrderDepth`): association
lists from price to resting volume. -/
structure OrderDepth where
  buy_orders : List (ℤ × ℤ)
  sell_orders : List (ℤ × ℤ)

/-- An emitted order (`datamodel.Order`): positive quantity buys, negative
sells. -/
structure Order where
  symbol : String
  price : ℤ
  quantity : ℤ
  deriving DecidableEq

/-- The trader's mutable per-product state: `self.historical_prices`,
`self.volatility` and `self.momentum`. -/
structure Maps where
  historical_prices : StrMap (List ℚ)
  volatility : StrMap ℝ
  momentum : StrMap ℚ

/-- The maps as `Trader.__init__` leaves them: all empty. -/
def initMaps : Maps := ⟨StrMap.empty, StrMap.empty, StrMap.empty⟩

/-- The decoded `traderData` blob: a dictionary with three named fields, any
of which a (possibly hand-rolled or older-schema) blob may lack. -/
structure SavedBlob where
  historical_prices : Option (StrMap (List ℚ))
  volatility : Option (StrMap ℝ)
  momentum : Option (StrMap ℚ)

/-- The per-tick input (`datamodel.TradingState`): book snapshots per product,
positions (absent products read as 0, folded into the function), and the
decoded previous state blob (`none` encodes the empty first-tick string). -/
structure TradingState where
  order_depths : List (String × OrderDepth)
  position : String → ℤ
  traderData : Option SavedBlob

/-- Sum of `abs(volume)` over one book side. -/
def totalVolume (l : List (ℤ × ℤ)) : ℤ := (l.map (fun pv => |pv.2|)).sum

/-- Sum of `price * abs(volume)` over one book side. -/
def totalValue (l : List (ℤ × ℤ)) : ℤ := (l.map (fun pv => pv.1 * |pv.2|)).sum

/-- Python `min(side.keys())`, `none` on an empty side. -/
def minKey (l : List (ℤ × ℤ)) : Option ℤ := (l.map Prod.fst).min?

/-- Python `max(side.keys())`, `none` on an empty side. -/
def maxKey (l : List (ℤ × ℤ)) : Option ℤ := (l.map Prod.fst).max?

/-- Python `abs(side[k])` for a price `k` present in the side. -/
def volAt (l : List (ℤ × ℤ)) (k : ℤ) : ℤ :=
  |(((l.find? (fun pv => pv.1 == k)).map Prod.snd).getD 0)|

/-- Python truthiness of an optional float: `None` and `0.0` are falsy. -/
def truthyQ : Option ℚ → Bool
  | none => false
  | some x => x != 0

/-- Using an optional float as a number: arithmetic on `None` raises
`TypeError`. -/
def qOfOpt : Option ℚ → Except PyErr ℚ
  | some v => .ok v
  | none => .error PyErr.typeError

/-- Python slice `l[-n:]` (for `n = 0` the whole list, as in Python). -/
def lastN {α : Type} (l : List α) (n : ℕ) : List α :=
  if n = 0 then l else l.drop (l.length - n)

/-- Python `statistics.mean`. -/
def mean (l : List ℚ) : ℚ := l.sum / (l.length : ℚ)

/-- Unbiased sample variance (the square of `statistics.stdev`); meaningful
only for lists of length at least two, which every call site guarantees by a
window-length guard. -/
def sampleVar (l : List ℚ) : ℚ :=
  ((l.map (fun x => (x - mean l) ^ 2)).sum) / ((l.length : ℚ) - 1)

/-- Python `statistics.stdev`: the square root of the unbiased sample variance. -/
noncomputable def sampleStdev (l : List ℚ) : ℝ := Real.sqrt ((sampleVar l : ℚ) : ℝ)

/-- The mean-reversion z-score `(price - mean) / stdev` of line 138. -/
noncomputable def zScore (recent : List ℚ) (c : ℚ) : ℝ :=
  ((c : ℝ) - ((mean recent : ℚ) : ℝ)) / sampleStdev recent

/-- Python `round` on an exact rational: round half to even. -/
def pythonRound (x : ℚ) : ℤ :=
  if x - ⌊x⌋ < 1/2 then ⌊x⌋
  else if (1 : ℚ)/2 < x - ⌊x⌋ then ⌊x⌋ + 1
  else if 2 ∣ ⌊x⌋ then ⌊x⌋ else ⌊x⌋ + 1

/-- Python `round` on a real: round half to even. -/
noncomputable def pythonRoundR (x : ℝ) : ℤ :=
  if x - ⌊x⌋ < 1/2 then ⌊x⌋
  else if (1 : ℝ)/2 < x - ⌊x⌋ then ⌊x⌋ + 1
  else if 2 ∣ ⌊x⌋ then ⌊x⌋ else ⌊x⌋ + 1

/-- Embedding of `Trader.calculate_fair_value` (lines 37-71): volume-weighted blend of the
two book sides, degrading to one side's VWAP only when the other side's VWAP
is falsy, and to the configured static value when a side is empty. -/
def calculate_fair_value (product : String) (d : OrderDepth) : Except PyErr (Option ℚ) :=
  if d.buy_orders = [] ∨ d.sell_orders = [] then
    eBind (getParams product) fun pp => .ok pp.fair_value
  else
    let tbv := totalVolume d.buy_orders
    let tav := totalVolume d.sell_orders
    let bid_vwap : Option ℚ :=
      if 0 < tbv then some ((totalValue d.buy_orders : ℚ) / (tbv : ℚ)) else none
    let ask_vwap : Option ℚ :=
      if 0 < tav then some ((totalValue d.sell_orders : ℚ) / (tav : ℚ)) else none
    if truthyQ bid_vwap && truthyQ ask_vwap then
      let total : ℚ := ((tbv + tav : ℤ) : ℚ)
      .ok (some (bid_vwap.getD 0 * ((tbv : ℚ) / total) + ask_vwap.getD 0 * ((tav : ℚ) / total)))
    else if truthyQ bid_vwap then .ok bid_vwap
    else if truthyQ ask_vwap then .ok ask_vwap
    else eBind (getParams product) fun pp => .ok pp.fair_value

/-- Embedding of `Trader.update_market_metrics` (lines 73-89): append the price to the
product's history, then refresh volatility (sample stdev over the last
`volatility_window`, default 20, prices) and momentum (relative change over
the last `momentum_window`, default 5, prices).  The momentum division is
unguarded: a zero divisor raises `ZeroDivisionError`. -/
noncomputable def update_market_metrics (m : Maps) (product : String) (price : ℚ) :
    Except PyErr Maps :=
  eBind (getParams product) fun pp =>
  let hist := (m.historical_prices product).getD [] ++ [price]
  let m1 : Maps := ⟨StrMap.insert m.historical_prices product hist, m.volatility, m.momentum⟩
  let vw := pp.volatility_window.getD 20
  let m2 : Maps :=
    if vw ≤ hist.length then
      ⟨m1.historical_prices, StrMap.insert m1.volatility product (sampleStdev (lastN hist vw)),
        m1.momentum⟩
    else m1
  let mw := pp.momentum_window.getD 5
  if mw ≤ hist.length then
    let recent := lastN hist mw
    if recent.headD 0 = 0 then .error PyErr.zeroDivisionError
    else
      .ok ⟨m2.historical_prices, m2.volatility,
        StrMap.insert m2.momentum product
          ((recent.getLastD 0 - recent.headD 0) / recent.headD 0)⟩
  else .ok m2

/-- Embedding of `Trader.get_order_volume` (lines 91-118): cap the size by remaining
headroom, the counter-party volume and `round(5 * vol_scale)`, damp it by
proximity to the limit, and finally force it up to at least one unit with
`max(1, ...)`. -/
noncomputable def get_order_volume (m : Maps) (product : String) (position : ℤ)
    (side : String) (available_volume : ℤ) : Except PyErr ℤ :=
  eBind (getParams product) fun pp =>
  let position_limit := pp.position_limit
  let vol_scale : ℝ :=
    match m.volatility product with
    | some v => max 0.2 (1 - v / 100)
    | none => 0.5
  let position_scale : ℚ := 1 - ((|position| : ℤ) : ℚ) / ((position_limit : ℤ) : ℚ)
  if side = "BUY" then
    let max_position := position_limit - position
    let base_volume : ℤ := min (min max_position available_volume) (pythonRoundR (5 * vol_scale))
    .ok (max 1 (pythonRound ((base_volume : ℚ) * position_scale)))
  else
    let max_position := position_limit + position
    let base_volume : ℤ := min (min max_position available_volume) (pythonRoundR (5 * vol_scale))
    .ok (max 1 (pythonRound ((base_volume : ℚ) * position_scale)))

/-- Embedding of `Trader.check_mean_reversion_signal` (lines 120-146): z-score of the
current price against the rolling window; `"SELL"` above the threshold,
`"BUY"` below its negation, `none` otherwise or on insufficient or degenerate
data.  The unguarded use of the current price happens after the stdev guard,
so a `None` fair value raises `TypeError` exactly when enough history exists
and the stdev is nonzero. -/
noncomputable def check_mean_reversion_signal (m : Maps) (product : String)
    (current_price : Option ℚ) : Except PyErr (Option String) :=
  match m.historical_prices product with
  | none => .ok none
  | some h =>
    if h = [] then .ok none
    else
      eBind (getParams product) fun pp =>
      eBind (match pp.mean_reversion_window with
             | some w => .ok w
             | none => .error PyErr.keyError) fun window =>
      eBind (match pp.std_dev_threshold with
             | some t => .ok t
             | none => .error PyErr.keyError) fun threshold =>
      if h.length < window then .ok none
      else
        let recent := lastN h window
        if sampleStdev recent = 0 then .ok none
        else
          eBind (qOfOpt current_price) fun c =>
          if (threshold : ℝ) < zScore recent c then .ok (some "SELL")
          else if zScore recent c < -(threshold : ℝ) then .ok (some "BUY")
          else .ok none

/-- The per-product trading branches of `Trader.run` (lines 176-245).  They
read the maps but never write them; the list of orders for the product is
returned. -/
noncomputable def tradeLogic (m : Maps) (position : ℤ) (product : String) (d : OrderDepth)
    (fv : Option ℚ) (pp : ProductParams) : Except PyErr (List Order) :=
  let min_edge := pp.min_edge
  if product = "RAINFOREST_RESIN" then
    let position_factor : ℚ := ((|position| : ℤ) : ℚ) / ((pp.position_limit : ℤ) : ℚ)
    let adjusted_spread := pp.spread + pp.spread * position_factor
    eBind (match minKey d.sell_orders with
      | none => .ok []
      | some best_ask =>
        eBind (qOfOpt fv) fun f =>
        if (best_ask : ℚ) < f - adjusted_spread then
          eBind (get_order_volume m product position "BUY" (volAt d.sell_orders best_ask)) fun bv =>
          if 0 < bv then .ok [Order.mk product best_ask bv] else .ok []
        else .ok []) fun buys =>
    eBind (match maxKey d.buy_orders with
      | none => .ok []
      | some best_bid =>
        eBind (qOfOpt fv) fun f =>
        if f + adjusted_spread < (best_bid : ℚ) then
          eBind (get_order_volume m product position "SELL" (volAt d.buy_orders best_bid)) fun sv =>
          if 0 < sv then .ok [Order.mk product best_bid (-sv)] else .ok []
        else .ok []) fun sells =>
    .ok (buys ++ sells)
  else if product = "KELP" then
    match m.momentum product with
    | none => .ok []
    | some momentum_signal =>
      if 1/100 < momentum_signal ∧ position < pp.position_limit then
        match minKey d.sell_orders with
        | none => .ok []
        | some best_ask =>
          eBind (qOfOpt fv) fun f =>
          if (best_ask : ℚ) < f + min_edge then
            eBind (get_order_volume m product position "BUY" (volAt d.sell_orders best_ask)) fun bv =>
            if 0 < bv then .ok [Order.mk product best_ask bv] else .ok []
          else .ok []
      else if momentum_signal < -(1/100) ∧ -pp.position_limit < position then
        match maxKey d.buy_orders with
        | none => .ok []
        | some best_bid =>
          eBind (qOfOpt fv) fun f =>
          if f - min_edge < (best_bid : ℚ) then
            eBind (get_order_volume m product position "SELL" (volAt d.buy_orders best_bid)) fun sv =>
            if 0 < sv then .ok [Order.mk product best_bid (-sv)] else .ok []
          else .ok []
      else .ok []
  else if product = "SQUID_INK" then
    eBind (check_mean_reversion_signal m product fv) fun signal =>
    let go : Except PyErr (List Order) :=
      if signal = some "BUY" then
        match minKey d.sell_orders with
        | none => .ok []
        | some best_ask =>
          eBind (qOfOpt fv) fun f =>
          if (best_ask : ℚ) < f + min_edge then
            eBind (get_order_volume m product position "BUY" (volAt d.sell_orders best_ask)) fun bv =>
            if 0 < bv then .ok [Order.mk product best_ask bv] else .ok []
          else .ok []
      else if signal = some "SELL" then
        match maxKey d.buy_orders with
        | none => .ok []
        | some best_bid =>
          eBind (qOfOpt fv) fun f =>
          if f - min_edge < (best_bid : ℚ) then
            eBind (get_order_volume m product position "SELL" (volAt d.buy_orders best_bid)) fun sv =>
            if 0 < sv then .ok [Order.mk product best_bid (-sv)] else .ok []
          else .ok []
      else .ok []
    match m.volatility product with
    | none => go
    | some v => if v = 0 ∨ v < 100 then go else .ok []
  else .ok []

/-- The guarded metrics update of lines 170-171: `if fair_value:` updates the
metrics only for a truthy (non-`None`, nonzero) fair value. -/
noncomputable def maybeUpdate (m : Maps) (product : String) (fv : Option ℚ) :
    Except PyErr Maps :=
  match fv with
  | some v => if v = 0 then .ok m else update_market_metrics m product v
  | none => .ok m

/-- The body of `Trader.run`'s product loop for one product (lines 159-246):
skip products with a fully empty book, estimate the fair value, update the
metrics when the fair value is truthy, then run the product's strategy. -/
noncomputable def processProduct (m : Maps) (position : ℤ) (product : String) (d : OrderDepth) :
    Except PyErr (Maps × List Order) :=
  if d.buy_orders = [] ∧ d.sell_orders = [] then .ok (m, [])
  else
    eBind (calculate_fair_value product d) fun fv =>
    eBind (maybeUpdate m product fv) fun m1 =>
    eBind (getParams product) fun pp =>
    eBind (tradeLogic m1 position product d fv pp) fun orders =>
    .ok (m1, orders)

/-- The product loop of `Trader.run`, threading the mutable maps left to
right and building the per-product result dictionary (absent products map to
the empty list). -/
noncomputable def runLoop (st : TradingState) (m : Maps) :
    List (String × OrderDepth) → Except PyErr (Maps × (String → List Order))
  | [] => .ok (m, fun _ => [])
  | pd :: rest =>
    eBind (processProduct m (st.position pd.1) pd.1 pd.2) fun mo =>
    eBind (runLoop st mo.1 rest) fun mr =>
    .ok (mr.1, fun q => if q = pd.1 then mo.2 else mr.2 q)

/-- Embedding of `Trader.run` (lines 148-255): restore the maps from the previous blob
(`historical_prices` by a raising subscript, the other two fields by `.get`
with an empty default), loop over the products, and return the result
dictionary, the constant conversion budget 0 and the re-encoded blob. -/
noncomputable def run (st : TradingState) :
    Except PyErr ((String → List Order) × ℤ × SavedBlob) :=
  eBind (match st.traderData with
    | none => .ok initMaps
    | some blob =>
      eBind (match blob.historical_prices with
             | some h => .ok h
             | none => .error PyErr.keyError) fun hist =>
      .ok ⟨hist, blob.volatility.getD StrMap.empty, blob.momentum.getD StrMap.empty⟩) fun m =>
  eBind (runLoop st m st.order_depths) fun mr =>
  .ok (mr.2, 0, ⟨some mr.1.historical_prices, some mr.1.volatility, some mr.1.momentum⟩)

/-- A sequence of ticks: feed each tick's book snapshots and positions to
`run`, threading the state blob that the previous tick returned. -/
noncomputable def runChain (b : Option SavedBlob) :
    List (List (String × OrderDepth) × (String → ℤ)) → Except PyErr (Option SavedBlob)
  | [] => .ok b
  | t :: rest =>
    eBind (run ⟨t.1, t.2, b⟩) fun out =>
    runChain (some out.2.2) rest

/-- The state blobs reachable from the empty first-tick `traderData` by
repeated successful ticks with arbitrary book snapshots and positions. -/
inductive ReachableBlob : Option SavedBlob → Prop
  | init : ReachableBlob none
  | step (b : Option SavedBlob) (ods : List (String × OrderDepth)) (pos : String → ℤ)
      (out : (String → List Order) × ℤ × SavedBlob) :
      ReachableBlob b → run ⟨ods, pos, b⟩ = .ok out → ReachableBlob (some out.2.2)

/-- The volatility window of a product, with the `.get` default 20. -/
def volWindow (p : String) : ℕ :=
  match product_parameters p with
  | some pp => pp.volatility_window.getD 20
  | none => 20

/-- The momentum window of a product, with the `.get` default 5. -/
def momWindow (p : String) : ℕ :=
  match product_parameters p with
  | some pp => pp.momentum_window.getD 5
  | none => 5

/-- The indicator invariant: a volatility or momentum entry exists for a
product only when that product's price history has reached the corresponding
window length. -/
def MetricsInv (m : Maps) : Prop :=
  (∀ p, (m.volatility p).isSome →
    ∃ h, m.historical_prices p = some h ∧ volWindow p ≤ h.length) ∧
  (∀ p, (m.momentum p).isSome →
    ∃ h, m.historical_prices p = some h ∧ momWindow p ≤ h.length)

/-- Positions fixed at zero, for concrete scenarios. -/
def pos0 : String → ℤ := fun _ => 0

/-- A one-product KELP tick whose both-sided book pins the fair value at `p`. -/
def kelpTick (p : ℤ) : List (String × OrderDepth) := [("KELP", ⟨[(p, 1)], [(p, -1)]⟩)]

/-- A KELP tick whose buy side is empty, so the fair value degrades to the
configured `None`. -/
def kelpCrashTick : List (String × OrderDepth) := [("KELP", ⟨[], [((100 : ℤ), (-1 : ℤ))]⟩)]

/-- Fifteen fair values for the mean-reversion window: fourteen flat prices
and one spike. -/
def c8hist : List ℚ := [10, 10, 10, 10, 10, 10, 10, 10, 10, 10, 10, 10, 10, 10, 12]

/-- Engine maps holding exactly that SQUID_INK history. -/
def c8maps : Maps := ⟨StrMap.insert StrMap.empty "SQUID_INK" c8hist, StrMap.empty, StrMap.empty⟩


/-- State blob after one KELP tick at fair value 100. -/
def blob1 : SavedBlob :=
  ⟨some (StrMap.insert StrMap.empty "KELP" [100]), some StrMap.empty, some StrMap.empty⟩

/-- State blob after KELP ticks at 100 and 101. -/
def blob2 : SavedBlob :=
  ⟨some (StrMap.insert StrMap.empty "KELP" [100, 101]), some StrMap.empty, some StrMap.empty⟩

/-- State blob after KELP ticks at 100, 101 and 102. -/
def blob3 : SavedBlob :=
  ⟨some (StrMap.insert StrMap.empty "KELP" [100, 101, 102]), some StrMap.empty, some StrMap.empty⟩

/-- State blob after KELP ticks at 100, 101, 102 and 103. -/
def blob4 : SavedBlob :=
  ⟨some (StrMap.insert StrMap.empty "KELP" [100, 101, 102, 103]), some StrMap.empty,
    some StrMap.empty⟩

/-- State blob after five KELP ticks at 100 to 104: the momentum window fills
and the stored momentum becomes `(104 - 100)/100 = 1/25`. -/
def blob5 : SavedBlob :=
  ⟨some (StrMap.insert StrMap.empty "KELP" [100, 101, 102, 103, 104]), some StrMap.empty,
    some (StrMap.insert StrMap.empty "KELP" (1/25))⟩

/-! Helper lemmas. -/

theorem eBind_ok {α β : Type} (a : α) (f : α → Except PyErr β) : eBind (.ok a) f = f a := rfl

theorem eBind_error {α β : Type} (e : PyErr) (f : α → Except PyErr β) :
    eBind (.error e) f = .error e := rfl

theorem StrMap.insert_insert {α : Type} (m : StrMap α) (k : String) (v w : α) :
    StrMap.insert (StrMap.insert m k v) k w = StrMap.insert m k w := by
  funext q
  simp only [StrMap.insert]
  split <;> rfl

theorem StrMap.insert_self {α : Type} (m : StrMap α) (k : String) (v : α) :
    StrMap.insert m k v k = some v := by
  simp [StrMap.insert]

theorem StrMap.insert_of_ne {α : Type} {q k : String} (m : StrMap α) (v : α) (h : q ≠ k) :
    StrMap.insert m k v q = m q := by
  simp [StrMap.insert, h]

theorem pythonRoundR_25 : pythonRoundR (5 * (0.5 : ℝ)) = 2 := by
  have h : (5 * (0.5 : ℝ)) = 5/2 := by norm_num
  rw [h]
  unfold pythonRoundR
  have hf : ⌊(5/2 : ℝ)⌋ = 2 := by norm_num [Int.floor_eq_iff]
  rw [hf]
  norm_num

theorem pythonRoundR_52 : pythonRoundR ((5 : ℝ)/2) = 2 := by
  have h : ((5 : ℝ)/2) = 5 * (0.5 : ℝ) := by norm_num
  rw [h, pythonRoundR_25]

theorem pythonRound_zero : pythonRound 0 = 0 := by
  norm_num [pythonRound]

theorem pythonRound_one : pythonRound 1 = 1 := by
  norm_num [pythonRound]

theorem pythonRound_two : pythonRound 2 = 2 := by
  unfold pythonRound
  have hf : ⌊(2 : ℚ)⌋ = 2 := by norm_num
  rw [hf]
  norm_num

theorem pp_resin : product_parameters "RAINFOREST_RESIN" = some resinParams := rfl

theorem pp_kelp : product_parameters "KELP" = some kelpParams := rfl

theorem pp_squid : product_parameters "SQUID_INK" = some squidParams := rfl

theorem kelp_ne_resin : (("KELP" : String) = "RAINFOREST_RESIN") = False := by decide

theorem squid_ne_resin : (("SQUID_INK" : String) = "RAINFOREST_RESIN") = False := by decide

theorem squid_ne_kelp : (("SQUID_INK" : String) = "KELP") = False := by decide

theorem sell_ne_buy : (("SELL" : String) = "BUY") = False := by decide

theorem buy_ne_sell : (("BUY" : String) = "SELL") = False := by decide

/-- One step of a tick chain, given the next blob that `run` produces. -/
theorem runChain_cons {b : Option SavedBlob} {ods : List (String × OrderDepth)}
    {pos : String → ℤ} {rest : List (List (String × OrderDepth) × (String → ℤ))}
    {b2 : SavedBlob}
    (h : Except.map (fun o => o.2.2) (run ⟨ods, pos, b⟩) = .ok b2) :
    runChain b ((ods, pos) :: rest) = runChain (some b2) rest := by
  cases hr : run ⟨ods, pos, b⟩ with
  | error e => rw [hr] at h; simp [Except.map] at h
  | ok out =>
    rw [hr] at h
    simp only [Except.map] at h
    injection h with h
    simp only [runChain, hr, eBind_ok]
    rw [h]

/-! Concrete tick evaluations for the six-tick KELP scenario. -/

set_option maxRecDepth 8000 in
set_option maxHeartbeats 1000000 in
theorem tick1 :
    Except.map (fun o => o.2.2) (run ⟨kelpTick 100, pos0, none⟩) = .ok blob1 := by
  norm_num [run, runLoop, processProduct, calculate_fair_value, update_market_metrics, maybeUpdate,
    tradeLogic, get_order_volume, getParams, pp_kelp, kelpParams, kelp_ne_resin, initMaps,
    StrMap.empty, StrMap.insert_insert, eBind_ok, eBind_error, minKey, maxKey, volAt, truthyQ,
    qOfOpt, totalVolume, totalValue, lastN, mean, pythonRoundR_25, pythonRoundR_52,
    pythonRound_zero, pythonRound_one, pythonRound_two, pythonRound,
    List.min?, List.max?, kelpTick, pos0, Except.map, blob1, StrMap.insert]

set_option maxRecDepth 8000 in
set_option maxHeartbeats 1000000 in
theorem tick2 :
    Except.map (fun o => o.2.2) (run ⟨kelpTick 101, pos0, some blob1⟩) = .ok blob2 := by
  norm_num [run, runLoop, processProduct, calculate_fair_value, update_market_metrics, maybeUpdate,
    tradeLogic, get_order_volume, getParams, pp_kelp, kelpParams, kelp_ne_resin, initMaps,
    StrMap.empty, StrMap.insert_insert, eBind_ok, eBind_error, minKey, maxKey, volAt, truthyQ,
    qOfOpt, totalVolume, totalValue, lastN, mean, pythonRoundR_25, pythonRoundR_52,
    pythonRound_zero, pythonRound_one, pythonRound_two, pythonRound,
    List.min?, List.max?, kelpTick, pos0, Except.map, blob1, blob2, StrMap.insert]

set_option maxRecDepth 8000 in
set_option maxHeartbeats 1000000 in
theorem tick3 :
    Except.map (fun o => o.2.2) (run ⟨kelpTick 102, pos0, some blob2⟩) = .ok blob3 := by
  norm_num [run, runLoop, processProduct, calculate_fair_value, update_market_metrics, maybeUpdate,
    tradeLogic, get_order_volume, getParams, pp_kelp, kelpParams, kelp_ne_resin, initMaps,
    StrMap.empty, StrMap.insert_insert, eBind_ok, eBind_error, minKey, maxKey, volAt, truthyQ,
    qOfOpt, totalVolume, totalValue, lastN, mean, pythonRoundR_25, pythonRoundR_52,
    pythonRound_zero, pythonRound_one, pythonRound_two, pythonRound,
    List.min?, List.max?, kelpTick, pos0, Except.map, blob2, blob3, StrMap.insert]

set_option maxRecDepth 8000 in
set_option maxHeartbeats 1000000 in
theorem tick4 :
    Except.map (fun o => o.2.2) (run ⟨kelpTick 103, pos0, some blob3⟩) = .ok blob4 := by
  norm_num [run, runLoop, processProduct, calculate_fair_value, update_market_metrics, maybeUpdate,
    tradeLogic, get_order_volume, getParams, pp_kelp, kelpParams, kelp_ne_resin, initMaps,
    StrMap.empty, StrMap.insert_insert, eBind_ok, eBind_error, minKey, maxKey, volAt, truthyQ,
    qOfOpt, totalVolume, totalValue, lastN, mean, pythonRoundR_25, pythonRoundR_52,
    pythonRound_zero, pythonRound_one, pythonRound_two, pythonRound,
    List.min?, List.max?, kelpTick, pos0, Except.map, blob3, blob4, StrMap.insert]

set_option maxRecDepth 8000 in
set_option maxHeartbeats 1000000 in
theorem tick5 :
    Except.map (fun o => o.2.2) (run ⟨kelpTick 104, pos0, some blob4⟩) = .ok blob5 := by
  norm_num [run, runLoop, processProduct, calculate_fair_value, update_market_metrics, maybeUpdate,
    tradeLogic, get_order_volume, getParams, pp_kelp, kelpParams, kelp_ne_resin, initMaps,
    StrMap.empty, StrMap.insert_insert, eBind_ok, eBind_error, minKey, maxKey, volAt, truthyQ,
    qOfOpt, totalVolume, totalValue, lastN, mean, pythonRoundR_25, pythonRoundR_52,
    pythonRound_zero, pythonRound_one, pythonRound_two, pythonRound,
    List.min?, List.max?, kelpTick, pos0, Except.map, blob4, blob5, StrMap.insert]

set_option maxRecDepth 8000 in
set_option maxHeartbeats 1000000 in
theorem tick6 :
    run ⟨kelpCrashTick, pos0, some blob5⟩ = .error PyErr.typeError := by
  norm_num [run, runLoop, processProduct, calculate_fair_value, update_market_metrics, maybeUpdate,
    tradeLogic, get_order_volume, getParams, pp_kelp, kelpParams, kelp_ne_resin, initMaps,
    StrMap.empty, StrMap.insert_insert, eBind_ok, eBind_error, minKey, maxKey, volAt, truthyQ,
    qOfOpt, totalVolume, totalValue, lastN, mean, pythonRoundR_25, pythonRoundR_52,
    pythonRound_zero, pythonRound_one, pythonRound_two, pythonRound,
    List.min?, List.max?, kelpCrashTick, pos0, Except.map, blob5, StrMap.insert]

set_option maxRecDepth 8000 in
set_option maxHeartbeats 1000000 in
theorem run_c4_eval :
    Except.map (fun out => out.1 "RAINFOREST_RESIN")
      (run ⟨[("RAINFOREST_RESIN", ⟨[], [((9995 : ℤ), (-20 : ℤ))]⟩)], pos0, none⟩)
      = .ok [Order.mk "RAINFOREST_RESIN" 9995 2] := by
  norm_num [run, runLoop, processProduct, calculate_fair_value, update_market_metrics, maybeUpdate,
    tradeLogic, get_order_volume, getParams, pp_resin, resinParams, initMaps,
    StrMap.empty, StrMap.insert, eBind_ok, eBind_error, minKey, maxKey, volAt, truthyQ,
    qOfOpt, totalVolume, totalValue, lastN, mean, pythonRoundR_25, pythonRoundR_52,
    pythonRound_zero, pythonRound_one, pythonRound_two,
    List.min?, List.max?, pos0, Except.map]

/-! Invariant machinery for the reachable-state claim. -/

theorem volWindow_eq {p : String} {pp : ProductParams} (h : product_parameters p = some pp) :
    volWindow p = pp.volatility_window.getD 20 := by
  simp [volWindow, h]

theorem momWindow_eq {p : String} {pp : ProductParams} (h : product_parameters p = some pp) :
    momWindow p = pp.momentum_window.getD 5 := by
  simp [momWindow, h]

/-- Growing a product's history preserves an indicator bound that was already
established for the old, shorter history. -/
theorem inv_part_grow {α : Type} {f : StrMap (List ℚ)} {g : StrMap α} {p : String} {v : ℚ}
    (w : String → ℕ)
    (hold : ∀ q, (g q).isSome → ∃ h, f q = some h ∧ w q ≤ h.length) :
    ∀ q, (g q).isSome →
      ∃ h, StrMap.insert f p ((f p).getD [] ++ [v]) q = some h ∧ w q ≤ h.length := by
  intro q hq
  obtain ⟨h0, hh0, hw⟩ := hold q hq
  by_cases hqp : q = p
  · subst hqp
    refine ⟨(f q).getD [] ++ [v], StrMap.insert_self _ _ _, ?_⟩
    rw [hh0]
    simp only [Option.getD, List.length_append, List.length_cons, List.length_nil]
    omega
  · exact ⟨h0, by rw [StrMap.insert_of_ne _ _ hqp]; exact hh0, hw⟩

/-- Inserting an indicator for `p` is sound when the grown history of `p` has
reached the window; other products fall back to the old bound. -/
theorem inv_part_insert {α : Type} {f : StrMap (List ℚ)} {g : StrMap α} {p : String} {v : ℚ}
    {x : α} (w : String → ℕ)
    (hold : ∀ q, (g q).isSome → ∃ h, f q = some h ∧ w q ≤ h.length)
    (hw : w p ≤ ((f p).getD [] ++ [v]).length) :
    ∀ q, (StrMap.insert g p x q).isSome →
      ∃ h, StrMap.insert f p ((f p).getD [] ++ [v]) q = some h ∧ w q ≤ h.length := by
  intro q hq
  by_cases hqp : q = p
  · subst hqp
    exact ⟨(f q).getD [] ++ [v], StrMap.insert_self _ _ _, hw⟩
  · rw [StrMap.insert_of_ne _ _ hqp] at hq
    obtain ⟨h0, hh0, hww⟩ := hold q hq
    exact ⟨h0, by rw [StrMap.insert_of_ne _ _ hqp]; exact hh0, hww⟩

theorem update_market_metrics_inv {m mm : Maps} {p : String} {v : ℚ}
    (hm : MetricsInv m) (h : update_market_metrics m p v = .ok mm) : MetricsInv mm := by
  obtain ⟨hvol, hmom⟩ := hm
  unfold update_market_metrics at h
  cases hpp : product_parameters p with
  | none =>
    simp only [getParams, hpp, eBind_error] at h
    exact Except.noConfusion h
  | some pp =>
    simp only [getParams, hpp, eBind_ok] at h
    by_cases hmw : pp.momentum_window.getD 5 ≤ ((m.historical_prices p).getD [] ++ [v]).length
    · rw [if_pos hmw] at h
      by_cases hz :
          (lastN ((m.historical_prices p).getD [] ++ [v]) (pp.momentum_window.getD 5)).headD 0 = 0
      · rw [if_pos hz] at h
        exact Except.noConfusion h
      · rw [if_neg hz] at h
        injection h with h
        rw [← h]
        by_cases hvw :
            pp.volatility_window.getD 20 ≤ ((m.historical_prices p).getD [] ++ [v]).length
        · rw [if_pos hvw]
          constructor
          · intro q hq
            exact inv_part_insert volWindow hvol (by rw [volWindow_eq hpp]; exact hvw) q hq
          · intro q hq
            exact inv_part_insert momWindow hmom (by rw [momWindow_eq hpp]; exact hmw) q hq
        · rw [if_neg hvw]
          constructor
          · intro q hq
            exact inv_part_grow volWindow hvol q hq
          · intro q hq
            exact inv_part_insert momWindow hmom (by rw [momWindow_eq hpp]; exact hmw) q hq
    · rw [if_neg hmw] at h
      injection h with h
      rw [← h]
      by_cases hvw :
          pp.volatility_window.getD 20 ≤ ((m.historical_prices p).getD [] ++ [v]).length
      · rw [if_pos hvw]
        constructor
        · intro q hq
          exact inv_part_insert volWindow hvol (by rw [volWindow_eq hpp]; exact hvw) q hq
        · intro q hq
          exact inv_part_grow momWindow hmom q hq
      · rw [if_neg hvw]
        constructor
        · intro q hq
          exact inv_part_grow volWindow hvol q hq
        · intro q hq
          exact inv_part_grow momWindow hmom q hq

theorem maybeUpdate_inv {m m1 : Maps} {p : String} {fv : Option ℚ}
    (hm : MetricsInv m) (h : maybeUpdate m p fv = .ok m1) : MetricsInv m1 := by
  cases fv with
  | none =>
    simp only [maybeUpdate] at h
    injection h with h
    rw [← h]
    exact hm
  | some v =>
    simp only [maybeUpdate] at h
    by_cases hv : v = 0
    · rw [if_pos hv] at h
      injection h with h
      rw [← h]
      exact hm
    · rw [if_neg hv] at h
      exact update_market_metrics_inv hm h

theorem processProduct_inv {m : Maps} {pos : ℤ} {p : String} {d : OrderDepth}
    {out : Maps × List Order}
    (hm : MetricsInv m) (h : processProduct m pos p d = .ok out) : MetricsInv out.1 := by
  unfold processProduct at h
  by_cases hskip : d.buy_orders = [] ∧ d.sell_orders = []
  · rw [if_pos hskip] at h
    injection h with h
    rw [← h]
    exact hm
  · rw [if_neg hskip] at h
    cases hc : calculate_fair_value p d with
    | error e =>
      rw [hc] at h
      simp only [eBind_error] at h
      exact Except.noConfusion h
    | ok fv =>
      rw [hc] at h
      simp only [eBind_ok] at h
      cases hu : maybeUpdate m p fv with
      | error e =>
        rw [hu] at h
        simp only [eBind_error] at h
        exact Except.noConfusion h
      | ok m1 =>
        rw [hu] at h
        simp only [eBind_ok] at h
        cases hp2 : getParams p with
        | error e =>
          rw [hp2] at h
          simp only [eBind_error] at h
          exact Except.noConfusion h
        | ok pp =>
          rw [hp2] at h
          simp only [eBind_ok] at h
          cases ht : tradeLogic m1 pos p d fv pp with
          | error e =>
            rw [ht] at h
            simp only [eBind_error] at h
            exact Except.noConfusion h
          | ok os =>
            rw [ht] at h
            simp only [eBind_ok] at h
            injection h with h
            rw [← h]
            exact maybeUpdate_inv hm hu

theorem runLoop_inv : ∀ (l : List (String × OrderDepth)) (st : TradingState) (m : Maps)
    (out : Maps × (String → List Order)), MetricsInv m → runLoop st m l = .ok out →
    MetricsInv out.1
  | [], _, m, out, hm, h => by
    simp only [runLoop] at h
    injection h with h
    rw [← h]
    exact hm
  | pd :: rest, st, m, out, hm, h => by
    simp only [runLoop] at h
    cases hp : processProduct m (st.position pd.1) pd.1 pd.2 with
    | error e =>
      rw [hp] at h
      simp only [eBind_error] at h
      exact Except.noConfusion h
    | ok mo =>
      rw [hp] at h
      simp only [eBind_ok] at h
      cases hr : runLoop st mo.1 rest with
      | error e =>
        rw [hr] at h
        simp only [eBind_error] at h
        exact Except.noConfusion h
      | ok mr =>
        rw [hr] at h
        simp only [eBind_ok] at h
        injection h with h
        rw [← h]
        exact runLoop_inv rest st mo.1 mr (processProduct_inv hm hp) hr

theorem MetricsInv_initMaps : MetricsInv initMaps := by
  constructor <;> intro q hq <;> simp [initMaps, StrMap.empty] at hq

theorem run_blob_inv {st : TradingState} {out : (String → List Order) × ℤ × SavedBlob}
    (h : run st = .ok out)
    (hblob : ∀ b, st.traderData = some b →
      ∃ H V M, b = ⟨some H, some V, some M⟩ ∧ MetricsInv ⟨H, V, M⟩) :
    ∃ H V M, out.2.2 = ⟨some H, some V, some M⟩ ∧ MetricsInv ⟨H, V, M⟩ := by
  unfold run at h
  cases htd : st.traderData with
  | none =>
    simp only [htd, eBind_ok] at h
    cases hr : runLoop st initMaps st.order_depths with
    | error e =>
      rw [hr] at h
      simp only [eBind_error] at h
      exact Except.noConfusion h
    | ok mr =>
      rw [hr] at h
      simp only [eBind_ok] at h
      injection h with h
      rw [← h]
      exact ⟨mr.1.historical_prices, mr.1.volatility, mr.1.momentum, rfl,
        runLoop_inv _ st initMaps mr MetricsInv_initMaps hr⟩
  | some blob =>
    obtain ⟨H, V, M, hb, hinv⟩ := hblob blob htd
    subst hb
    simp only [htd, eBind_ok, Option.getD] at h
    cases hr : runLoop st ⟨H, V, M⟩ st.order_depths with
    | error e =>
      rw [hr] at h
      simp only [eBind_error] at h
      exact Except.noConfusion h
    | ok mr =>
      rw [hr] at h
      simp only [eBind_ok] at h
      injection h with h
      rw [← h]
      exact ⟨mr.1.historical_prices, mr.1.volatility, mr.1.momentum, rfl,
        runLoop_inv _ st ⟨H, V, M⟩ mr hinv hr⟩

theorem reachable_inv : ∀ {ob : Option SavedBlob}, ReachableBlob ob →
    ∀ b, ob = some b → ∃ H V M, b = ⟨some H, some V, some M⟩ ∧ MetricsInv ⟨H, V, M⟩ := by
  intro ob hr
  induction hr with
  | init => intro b hb; exact Option.noConfusion hb
  | step b0 ods pos out hb0 hrun ih =>
    intro b hb
    injection hb with hb
    subst hb
    exact run_blob_inv hrun ih

/-- Sample variance of the concrete C8 witness history. -/
theorem sampleVar_c8 : sampleVar (lastN c8hist 15) = 4/15 := by
  norm_num [sampleVar, mean, lastN, c8hist]

/-! Claim theorems. -/

/-- Claim C1 (code bug): an exception can propagate out of a tick on inputs
whose `traderData` was produced by prior ticks.  Five KELP ticks with
two-sided books at fair values 100 to 104 succeed and fill the momentum
window; a sixth tick whose KELP book has only a sell side makes the fair
value degrade to the configured `None`, and the momentum branch then raises
`TypeError` evaluating `best_ask < fair_value + min_edge`. -/
theorem claim_C1_run_raises :
    runChain none [(kelpTick 100, pos0), (kelpTick 101, pos0), (kelpTick 102, pos0),
      (kelpTick 103, pos0), (kelpTick 104, pos0), (kelpCrashTick, pos0)]
      = .error PyErr.typeError := by
  rw [runChain_cons tick1, runChain_cons tick2, runChain_cons tick3, runChain_cons tick4,
    runChain_cons tick5]
  simp only [runChain, tick6, eBind_error]

/-- Claim C2 (code bug): on the very first tick, with RAINFOREST_RESIN already
at its position limit 50 and a sell order at 9990 below fair value minus the
adjusted spread, `run` still emits a buy of quantity 1, pushing the position
to 51 beyond the configured limit of 50. -/
theorem claim_C2_limit_breached :
    Except.map (fun out => out.1 "RAINFOREST_RESIN")
      (run ⟨[("RAINFOREST_RESIN", ⟨[], [((9990 : ℤ), (-10 : ℤ))]⟩)], fun _ => 50, none⟩)
      = .ok [Order.mk "RAINFOREST_RESIN" 9990 1] ∧ (50 : ℤ) < |(50 : ℤ) + 1| := by
  constructor
  · norm_num [run, runLoop, processProduct, calculate_fair_value, update_market_metrics, maybeUpdate,
      tradeLogic, get_order_volume, getParams, pp_resin, resinParams, initMaps,
      StrMap.empty, StrMap.insert, eBind_ok, eBind_error, minKey, maxKey, volAt, truthyQ,
      qOfOpt, totalVolume, totalValue, lastN, mean, pythonRoundR_25, pythonRoundR_52,
      pythonRound_zero, pythonRound_one, pythonRound_two, pythonRound,
      List.min?, List.max?, Except.map]
  · norm_num

/-- Claim C3 (code bug): at zero headroom (position already at the limit for a
buy) the position sizer returns 1, not the suppressing 0 that the
specification requires. -/
theorem claim_C3_no_suppression :
    get_order_volume initMaps "RAINFOREST_RESIN" 50 "BUY" 10 = .ok 1 := by
  norm_num [get_order_volume, getParams, pp_resin, initMaps, StrMap.empty,
    pythonRoundR_25, pythonRoundR_52, pythonRound_zero, eBind_ok, resinParams, pythonRound]

/-- Claim C4 counterexample: in the market-making scenario (fair value 10000,
spread 2, best ask 9995, position 0, no tracked volatility, ample
counter-volume 20) the emitted buy has quantity 2, not the claimed
`min(headroom, 10) = 10`. -/
theorem claim_C4_counterexample :
    Except.map (fun out => out.1 "RAINFOREST_RESIN")
      (run ⟨[("RAINFOREST_RESIN", ⟨[], [((9995 : ℤ), (-20 : ℤ))]⟩)], pos0, none⟩)
      = .ok [Order.mk "RAINFOREST_RESIN" 9995 2] ∧
    Order.mk "RAINFOREST_RESIN" 9995 2 ≠ Order.mk "RAINFOREST_RESIN" 9995 (min 50 10) := by
  exact ⟨run_c4_eval, by decide⟩

/-- Claim C4 amended: in that scenario the engine emits a buy at 9995 whose
quantity is `min(headroom, counter-volume, 2)`: the cap is
`round(5 * 0.5) = 2` under banker's rounding when no volatility is tracked,
not the claimed baseline 10. -/
theorem claim_C4_amended :
    Except.map (fun out => out.1 "RAINFOREST_RESIN")
      (run ⟨[("RAINFOREST_RESIN", ⟨[], [((9995 : ℤ), (-20 : ℤ))]⟩)], pos0, none⟩)
      = .ok [Order.mk "RAINFOREST_RESIN" 9995 (min (min 50 20) 2)] := by
  rw [show (min (min (50 : ℤ) 20) 2) = 2 by norm_num]
  exact run_c4_eval

/-- Claim C5 (code bug): when the momentum window is full and the price
`W` back is zero, `update_market_metrics` raises `ZeroDivisionError` instead
of suppressing the momentum signal for the tick. -/
theorem claim_C5_momentum_zero_div :
    update_market_metrics
      ⟨StrMap.insert StrMap.empty "KELP" [0, 1, 2, 3], StrMap.empty, StrMap.empty⟩ "KELP" 4
      = .error PyErr.zeroDivisionError := rfl

/-- Claim C6 (code bug): a non-empty state blob that lacks the
`historical_prices` field makes `run` raise `KeyError` even though the other
fields are present and valid, while a blob that lacks only the `volatility`
and `momentum` fields is restored with those defaulted to empty and the
history preserved. -/
theorem claim_C6_restore_keyerror :
    run ⟨[], pos0, some ⟨none, some (StrMap.insert StrMap.empty "KELP" ((2 : ℝ))),
        some StrMap.empty⟩⟩ = .error PyErr.keyError ∧
    run ⟨[], pos0, some ⟨some (StrMap.insert StrMap.empty "KELP" [(100 : ℚ)]), none, none⟩⟩
      = .ok (fun _ => [], 0, ⟨some (StrMap.insert StrMap.empty "KELP" [(100 : ℚ)]),
          some StrMap.empty, some StrMap.empty⟩) := by
  exact ⟨rfl, rfl⟩

/-- Claim C7 counterexample: with only a bid side `{100: 5}` present, the fair
value estimator returns the static configured value 10000, not the
present side's volume-weighted average price 100. -/
theorem claim_C7_counterexample :
    calculate_fair_value "RAINFOREST_RESIN" ⟨[((100 : ℤ), (5 : ℤ))], []⟩ = .ok (some 10000) ∧
    (10000 : ℚ) ≠ (totalValue [((100 : ℤ), (5 : ℤ))] : ℚ)
        / (totalVolume [((100 : ℤ), (5 : ℤ))] : ℚ) := by
  constructor
  · rfl
  · norm_num [totalValue, totalVolume]

/-- Claim C7 amended: for every configured product, whenever exactly one book
side is non-empty the fair value estimator returns the product's static
configured fair value (the early return of lines 39-40); it never degrades to
the present side's VWAP in that case. -/
theorem claim_C7_amended (product : String) (pp : ProductParams) (d : OrderDepth)
    (hp : product_parameters product = some pp)
    (hone : (d.buy_orders = [] ∧ d.sell_orders ≠ []) ∨
      (d.buy_orders ≠ [] ∧ d.sell_orders = [])) :
    calculate_fair_value product d = .ok pp.fair_value := by
  have hor : d.buy_orders = [] ∨ d.sell_orders = [] := by tauto
  unfold calculate_fair_value
  rw [if_pos hor]
  simp only [getParams, hp, eBind_ok]

/-- Witness for the amended claim C7 at a concrete one-sided book. -/
theorem claim_C7_witness :
    (product_parameters "RAINFOREST_RESIN" = some resinParams ∧
      ((([((100 : ℤ), (5 : ℤ))] : List (ℤ × ℤ)) = [] ∧ (([] : List (ℤ × ℤ)) ≠ [])) ∨
       (([((100 : ℤ), (5 : ℤ))] : List (ℤ × ℤ)) ≠ [] ∧ (([] : List (ℤ × ℤ)) = [])))) ∧
    calculate_fair_value "RAINFOREST_RESIN" ⟨[((100 : ℤ), (5 : ℤ))], []⟩
      = .ok resinParams.fair_value := by
  refine ⟨⟨rfl, Or.inr ⟨by simp, rfl⟩⟩, ?_⟩
  exact claim_C7_amended "RAINFOREST_RESIN" resinParams ⟨[((100 : ℤ), (5 : ℤ))], []⟩ rfl
    (Or.inr ⟨by simp, rfl⟩)

/-- Claim C8 (confirmed): for any SQUID_INK history of length at least the
mean-reversion window 15 with nonzero sample standard deviation, the signal
is BUY exactly when the z-score is below minus the threshold 3/2, SELL
exactly when it is above 3/2, and no signal otherwise. -/
theorem claim_C8_mean_reversion_iff (m : Maps) (h : List ℚ) (c : ℚ)
    (hh : m.historical_prices "SQUID_INK" = some h) (hlen : 15 ≤ h.length)
    (hsd : sampleStdev (lastN h 15) ≠ 0) :
    (check_mean_reversion_signal m "SQUID_INK" (some c) = .ok (some "BUY")
        ↔ zScore (lastN h 15) c < -(3/2 : ℝ)) ∧
    (check_mean_reversion_signal m "SQUID_INK" (some c) = .ok (some "SELL")
        ↔ (3/2 : ℝ) < zScore (lastN h 15) c) ∧
    (check_mean_reversion_signal m "SQUID_INK" (some c) = .ok none
        ↔ ¬ zScore (lastN h 15) c < -(3/2 : ℝ) ∧ ¬ (3/2 : ℝ) < zScore (lastN h 15) c) := by
  have hne : ¬ h = [] := by
    intro e
    rw [e] at hlen
    simp at hlen
  have hnl : ¬ h.length < 15 := by omega
  have hcast : ((3/2 : ℚ) : ℝ) = (3/2 : ℝ) := by norm_num
  unfold check_mean_reversion_signal
  simp only [hh, if_neg hne, getParams, pp_squid, squidParams, eBind_ok, if_neg hnl,
    if_neg hsd, hcast, qOfOpt]
  by_cases h1 : (3/2 : ℝ) < zScore (lastN h 15) c
  · have h2 : ¬ zScore (lastN h 15) c < -(3/2 : ℝ) := by linarith
    rw [if_pos h1]
    refine ⟨?_, ?_, ?_⟩ <;> simp [h1, h2, qOfOpt, sell_ne_buy]
  · rw [if_neg h1]
    by_cases h2 : zScore (lastN h 15) c < -(3/2 : ℝ)
    · rw [if_pos h2]
      refine ⟨?_, ?_, ?_⟩ <;> simp [h1, h2, qOfOpt, buy_ne_sell]
    · rw [if_neg h2]
      refine ⟨?_, ?_, ?_⟩ <;> simp [h1, h2, qOfOpt]

/-- Witness for claim C8: fourteen flat prices and one spike give sample
variance 4/15, so the hypotheses hold and the theorem applies. -/
theorem claim_C8_witness :
    (c8maps.historical_prices "SQUID_INK" = some c8hist ∧ 15 ≤ c8hist.length ∧
      sampleStdev (lastN c8hist 15) ≠ 0) ∧
    ((check_mean_reversion_signal c8maps "SQUID_INK" (some 0) = .ok (some "BUY")
        ↔ zScore (lastN c8hist 15) 0 < -(3/2 : ℝ)) ∧
     (check_mean_reversion_signal c8maps "SQUID_INK" (some 0) = .ok (some "SELL")
        ↔ (3/2 : ℝ) < zScore (lastN c8hist 15) 0) ∧
     (check_mean_reversion_signal c8maps "SQUID_INK" (some 0) = .ok none
        ↔ ¬ zScore (lastN c8hist 15) 0 < -(3/2 : ℝ) ∧
          ¬ (3/2 : ℝ) < zScore (lastN c8hist 15) 0)) := by
  have hsd : sampleStdev (lastN c8hist 15) ≠ 0 := by
    simp only [sampleStdev, sampleVar_c8]
    refine Real.sqrt_ne_zero'.mpr ?_
    norm_num
  have hh : c8maps.historical_prices "SQUID_INK" = some c8hist := rfl
  have hlen : 15 ≤ c8hist.length := by norm_num [c8hist]
  exact ⟨⟨hh, hlen, hsd⟩, claim_C8_mean_reversion_iff c8maps c8hist 0 hh hlen hsd⟩

/-- Claim C9 (confirmed): in every state blob reachable from the empty
initial `traderData` by repeated successful ticks, all three fields are
present and every tracked volatility or momentum entry is backed by a price
history at least as long as the corresponding window; below the window the
indicator is absent, not zero. -/
theorem claim_C9_metrics_invariant (b : SavedBlob) (hb : ReachableBlob (some b)) :
    ∃ H V M, b = ⟨some H, some V, some M⟩ ∧ MetricsInv ⟨H, V, M⟩ :=
  reachable_inv hb b rfl

/-- Witness for claim C9: the blob produced by one tick with no products is
reachable, and the invariant holds for it. -/
theorem claim_C9_witness :
    ReachableBlob (some (⟨some StrMap.empty, some StrMap.empty, some StrMap.empty⟩ :
      SavedBlob)) ∧
    ∃ H V M, (⟨some StrMap.empty, some StrMap.empty, some StrMap.empty⟩ : SavedBlob)
        = ⟨some H, some V, some M⟩ ∧ MetricsInv ⟨H, V, M⟩ := by
  have hrun : run ⟨[], pos0, none⟩ =
      .ok (fun _ => [], 0, ⟨some StrMap.empty, some StrMap.empty, some StrMap.empty⟩) := rfl
  have hr := ReachableBlob.step none [] pos0 _ ReachableBlob.init hrun
  exact ⟨hr, claim_C9_metrics_invariant _ hr⟩

/-- Claim C10 (confirmed, implicit): for every configured product, any
position, side and counter-volume, the position sizer returns a value of at
least 1 because of the final `max(1, ...)`; it never returns 0, so the
call sites' zero-quantity suppression branches are unreachable. -/
theorem claim_C10_min_one (m : Maps) (p : String) (pp : ProductParams)
    (hp : product_parameters p = some pp) (position avail : ℤ) (side : String) :
    ∃ v, get_order_volume m p position side avail = .ok v ∧ 1 ≤ v := by
  unfold get_order_volume
  simp only [getParams, hp, eBind_ok]
  by_cases hs : side = "BUY"
  · rw [if_pos hs]
    exact ⟨_, rfl, le_max_left _ _⟩
  · rw [if_neg hs]
    exact ⟨_, rfl, le_max_left _ _⟩

/-- Witness for claim C10 at a concrete configured product and input. -/
theorem claim_C10_witness :
    product_parameters "RAINFOREST_RESIN" = some resinParams ∧
    ∃ v, get_order_volume initMaps "RAINFOREST_RESIN" 0 "BUY" 10 = .ok v ∧ 1 ≤ v :=
  ⟨rfl, claim_C10_min_one initMaps "RAINFOREST_RESIN" resinParams rfl 0 10 "BUY"⟩

end Trader
